import Mathlib

/-!
Shallow embedding of the WhatsApp relay bot in `src/index.js`.

The program keeps three module-level mutable variables (`qrCodeString`,
`connectionState`, `retryCount`) together with two constants
(`maxRetries`, `retryDelay`).  Its behaviour is driven by event
callbacks: `connection.update` (QR, open and close branches),
`messages.upsert` (delegating to `handleIncomingMessage`, which calls
`generateAIResponse`), and an Express route `GET /status`.

Each handler is embedded as a pure function from the current state, the
event payload and the outcomes of the external calls it performs
(QR rendering, the generative-text API, presence updates, message
sends - each of which may throw in JavaScript) to the new state and a
trace of the observable actions it performed.
-/

namespace Wachat

/-- Constant `maxRetries` from `src/index.js` line 51. -/
def maxRetries : Nat := 5

/-- Constant `retryDelay` (milliseconds) from `src/index.js` line 52. -/
def retryDelay : Nat := 5000

/-- Baileys `DisconnectReason.loggedOut` status code. -/
def DisconnectReason_loggedOut : Nat := 401

/-- The module-level mutable state of the script:
`qrCodeString`, `connectionState`, `retryCount` (lines 48-50). -/
structure BotState where
  qrCodeString : String
  connectionState : String
  retryCount : Nat
  deriving Repr, DecidableEq

/-- Payload of a `connection.update` event as destructured on line 107:
`connection`, `lastDisconnect` (only its `error.output.statusCode` is
read; `none` models any missing link of the optional chain) and `qr`. -/
structure ConnUpdate where
  connection : Option String
  lastDisconnectStatusCode : Option Nat
  qr : Option String
  deriving Repr, DecidableEq

/-- Observable actions of the `connection.update` handler. -/
inductive ConnAction where
  | scheduleReconnect (delayMs : Nat)
  | deleteCredsBestEffort
  | exitProcess (code : Nat)
  deriving Repr, DecidableEq

/-- The `connection.update` handler (lines 106-202).

`qrDataUrl` is the outcome of the two `QRCode` library calls inside the
`try` block of the QR branch (lines 114-147): `some url` when both
succeed (the handler then stores the data URL and resets `retryCount`),
`none` when one of them throws (the `catch` on line 149 only logs, so
neither assignment happens).

Returns the new state and the list of scheduled actions. -/
def connectionUpdate (s : BotState) (u : ConnUpdate) (qrDataUrl : Option String) :
    BotState × List ConnAction :=
  -- line 110: connectionState = connection-or-unknown fallback
  let s1 : BotState := { s with connectionState := u.connection.getD "unknown" }
  -- lines 113-153: QR branch
  let s2 : BotState :=
    match u.qr with
    | none => s1
    | some _ =>
      match qrDataUrl with
      | some url => { s1 with qrCodeString := url, retryCount := 0 }
      | none => s1
  -- lines 156-162: open branch
  let s3 : BotState :=
    if u.connection = some "open" then
      { s2 with retryCount := 0, qrCodeString := "" }
    else s2
  -- lines 165-201: close branch
  if u.connection = some "close" then
    let shouldReconnect := u.lastDisconnectStatusCode ≠ some DisconnectReason_loggedOut
    if shouldReconnect ∧ s3.retryCount < maxRetries then
      -- line 176: retryCount++ ; line 177: delay = retryDelay * retryCount
      let s4 : BotState := { s3 with retryCount := s3.retryCount + 1 }
      (s4, [ConnAction.scheduleReconnect (retryDelay * s4.retryCount)])
    else if u.lastDisconnectStatusCode = some DisconnectReason_loggedOut then
      -- lines 184-195: best-effort rmSync inside try/catch, then process.exit(1)
      (s3, [ConnAction.deleteCredsBestEffort, ConnAction.exitProcess 1])
    else
      -- lines 196-200
      (s3, [ConnAction.exitProcess 1])
  else
    (s3, [])

/-- Key of a message as read by the handlers: `remoteJid` and `fromMe`. -/
structure MsgKey where
  remoteJid : String
  fromMe : Bool
  deriving Repr, DecidableEq

/-- The message-shape variants distinguished by the `switch` on
`getContentType(message.message)` (lines 258-276).  Captions and file
names are `Option String`; `none` models an absent (undefined) field. -/
inductive MsgContent where
  | conversation (text : String)
  | extendedTextMessage (text : String)
  | imageMessage (caption : Option String)
  | videoMessage (caption : Option String)
  | documentMessage (fileName : Option String)
  | other
  deriving Repr, DecidableEq

/-- An inbound message: its key and its content. -/
structure WAMessage where
  key : MsgKey
  content : MsgContent
  deriving Repr, DecidableEq

/-- The content-type tag `getContentType` returns for each variant. -/
def getContentType : MsgContent → String
  | .conversation _ => "conversation"
  | .extendedTextMessage _ => "extendedTextMessage"
  | .imageMessage _ => "imageMessage"
  | .videoMessage _ => "videoMessage"
  | .documentMessage _ => "documentMessage"
  | .other => "other"

/-- JavaScript `a || d` on strings: an absent or empty string is falsy. -/
def jsOrElse (a : Option String) (d : String) : String :=
  match a with
  | none => d
  | some t => if t = "" then d else t

/-- Text extraction `switch` of `handleIncomingMessage` (lines 258-276). -/
def extractMessageText : MsgContent → String
  | .conversation t => t
  | .extendedTextMessage t => t
  | .imageMessage c => jsOrElse c "Image received"
  | .videoMessage c => jsOrElse c "Video received"
  | .documentMessage f => "Document received: " ++ jsOrElse f "Unknown"
  | .other => "Unsupported message type"

/-- Fixed apology returned by `generateAIResponse` on any failure
(line 322). -/
def fallbackApology : String :=
  "Hello! I received your message but encountered an issue generating a response. Please try again."

/-- Generic error text sent by the `catch` block of
`handleIncomingMessage` (line 299). -/
def genericErrorText : String :=
  "Sorry, I encountered an error processing your message. Please try again."

/-- Outcomes of the external calls `handleIncomingMessage` performs, in
program order: the two `sock.sendPresenceUpdate` calls, the
generative-text API call chain (`generateContent` / `.response` /
`.text()` - `Except.error` models any throw along it, including a
malformed response body, `Except.ok t` a reply text `t`), the
`sock.sendMessage` of the reply, and the `sock.sendMessage` of the
generic error message. -/
structure RelayEnv where
  presenceComposingOk : Bool
  aiResult : Except Unit String
  presencePausedOk : Bool
  sendReplyOk : Bool
  sendErrorMsgOk : Bool
  deriving Repr

instance : DecidableEq (Except Unit String) := fun a b =>
  match a, b with
  | .ok x, .ok y =>
    if h : x = y then .isTrue (by rw [h]) else .isFalse (by simp [h])
  | .error _, .error _ => .isTrue (by rfl)
  | .ok _, .error _ => .isFalse (by simp)
  | .error _, .ok _ => .isFalse (by simp)

instance : DecidableEq RelayEnv := fun a b =>
  match a, b with
  | ⟨p1, r1, q1, s1, e1⟩, ⟨p2, r2, q2, s2, e2⟩ =>
    if h : p1 = p2 ∧ r1 = r2 ∧ q1 = q2 ∧ s1 = s2 ∧ e1 = e2 then
      .isTrue (by obtain ⟨h1, h2, h3, h4, h5⟩ := h; subst h1 h2 h3 h4 h5; rfl)
    else
      .isFalse (by intro hc; cases hc; exact h ⟨rfl, rfl, rfl, rfl, rfl⟩)

/-- Observable actions of the message relay.  A `send` or
`presenceUpdate` records the attempt (the call being issued); whether it
succeeded is given by the corresponding `RelayEnv` flag. -/
inductive RelayAction where
  | presenceUpdate (kind toJid : String)
  | apiCall (messageText messageType : String)
  | send (toJid text : String)
  | logError (tag : String)
  deriving Repr, DecidableEq

/-- Function `generateAIResponse` (lines 308-324): returns the API text on
success and the fixed apology on any throw; it never propagates an
error to its caller. -/
def generateAIResponse (apiResult : Except Unit String) : String :=
  match apiResult with
  | .ok t => t
  | .error _ => fallbackApology

/-- Body of the outer `try` of `handleIncomingMessage` (lines 252-293):
the trace of actions performed and whether the body threw. -/
def handleBody (env : RelayEnv) (message : WAMessage) :
    List RelayAction × Bool :=
  let f := message.key.remoteJid
  let mt := getContentType message.content
  let txt := extractMessageText message.content
  -- line 281: await sock.sendPresenceUpdate of composing
  if ¬ env.presenceComposingOk then
    ([RelayAction.presenceUpdate "composing" f], true)
  else
    -- line 284: const aiResponse = await generateAIResponse(...)
    let ai := generateAIResponse env.aiResult
    let tr1 := [RelayAction.presenceUpdate "composing" f,
                RelayAction.apiCall txt mt]
    -- line 287: await sock.sendPresenceUpdate of paused
    if ¬ env.presencePausedOk then
      (tr1 ++ [RelayAction.presenceUpdate "paused" f], true)
    else
      let tr2 := tr1 ++ [RelayAction.presenceUpdate "paused" f]
      -- lines 290-293: if (aiResponse) await sock.sendMessage(from, {text})
      if ai ≠ "" then
        (tr2 ++ [RelayAction.send f ai], !env.sendReplyOk)
      else
        (tr2, false)

/-- Function `handleIncomingMessage` (lines 251-305): the outer `try`, whose
`catch` makes a best-effort `sendMessage` of the generic error text,
itself wrapped in an inner `try`/`catch` that only logs (lines
297-303).  Returns the trace and whether an exception escaped the
handler (always `false`, since every failure path is caught). -/
def handleIncomingMessage (env : RelayEnv) (message : WAMessage) :
    List RelayAction × Bool :=
  let f := message.key.remoteJid
  match handleBody env message with
  | (tr, false) => (tr, false)
  | (tr, true) =>
    if env.sendErrorMsgOk then
      (tr ++ [RelayAction.send f genericErrorText], false)
    else
      (tr ++ [RelayAction.send f genericErrorText,
              RelayAction.logError "Error sending error message"], false)

/-- Payload of a `messages.upsert` event: the batch and its type. -/
structure UpsertEvent where
  messages : List WAMessage
  type : String
  deriving Repr, DecidableEq

/-- The `messages.upsert` handler (lines 205-214): reads only
`m.messages[0]`; an empty batch makes `message.key` throw, which the
surrounding `try`/`catch` swallows (trace empty).  Only a first message
with `!fromMe` in a batch of type notify is handled. -/
def messagesUpsert (env : RelayEnv) (m : UpsertEvent) : List RelayAction :=
  match m.messages with
  | [] => []
  | msg :: _ =>
    if ¬ msg.key.fromMe ∧ m.type = "notify" then
      (handleIncomingMessage env msg).1
    else
      []

/-- A WhatsApp group-conversation JID ends in the group suffix. -/
def isGroupJid (jid : String) : Bool :=
  "@g.us".data.isSuffixOf jid.data

/-- The JSON body returned by `GET /status` (lines 472-480): exactly the
fields `status`, `hasQR`, `retryCount`, `maxRetries`, `timestamp`. -/
structure StatusResponse where
  status : String
  hasQR : Bool
  retryCount : Nat
  maxRetries : Nat
  timestamp : String
  deriving Repr, DecidableEq

/-- The `GET /status` route handler: a pure function of the in-memory
state and the current time string. -/
def statusRoute (s : BotState) (now : String) : StatusResponse :=
  { status := s.connectionState
    hasQR := s.qrCodeString ≠ ""
    retryCount := s.retryCount
    maxRetries := maxRetries
    timestamp := now }

/-- Modelled from the spec: section 7 of the spec describes the second
send attempt in the `catch` of the message handler as "itself unguarded
against failure".  This variant follows the words of the spec for comparison
with `handleIncomingMessage` (which wraps that send in an inner
`try`/`catch`): here a failure of the generic error-message send escapes
the handler. -/
def handleIncomingMessageUnguarded (env : RelayEnv) (message : WAMessage) :
    List RelayAction × Bool :=
  let f := message.key.remoteJid
  match handleBody env message with
  | (tr, false) => (tr, false)
  | (tr, true) =>
    (tr ++ [RelayAction.send f genericErrorText], !env.sendErrorMsgOk)

/-- Count of `send` actions in a trace. -/
def countSends (tr : List RelayAction) : Nat :=
  (tr.filter fun a => match a with | .send _ _ => true | _ => false).length

/-- Count of `apiCall` actions in a trace. -/
def countApiCalls (tr : List RelayAction) : Nat :=
  (tr.filter fun a => match a with | .apiCall _ _ => true | _ => false).length

end Wachat
namespace Wachat

/-- Claim C1, counterexample: an inbound message from a group
conversation (JID with the group suffix), not authored by the bot, IS
fully processed: the relay performs the outbound text-generation call
and sends a reply to the group.  The filter on lines 205-214 checks only
`fromMe` and the batch type; there is no group check anywhere. -/
theorem C1_counterexample :
    isGroupJid "123-456@g.us" = true ∧
    messagesUpsert ⟨true, .ok "hi there", true, true, true⟩
        ⟨[⟨⟨"123-456@g.us", false⟩, .conversation "hello"⟩], "notify"⟩ =
      [RelayAction.presenceUpdate "composing" "123-456@g.us",
       RelayAction.apiCall "hello" "conversation",
       RelayAction.presenceUpdate "paused" "123-456@g.us",
       RelayAction.send "123-456@g.us" "hi there"] ∧
    countApiCalls (messagesUpsert ⟨true, .ok "hi there", true, true, true⟩
        ⟨[⟨⟨"123-456@g.us", false⟩, .conversation "hello"⟩], "notify"⟩) = 1 ∧
    countSends (messagesUpsert ⟨true, .ok "hi there", true, true, true⟩
        ⟨[⟨⟨"123-456@g.us", false⟩, .conversation "hello"⟩], "notify"⟩) = 1 := by
  refine ⟨by decide, by decide, by decide, by decide⟩

/-- Claim C1 (amended): only messages authored by the bot itself are
filtered out - for every batch whose first message has `fromMe` set, the
relay performs no outbound call and sends no reply.  Messages from group
conversations are not filtered. -/
theorem C1_selfAuthoredIgnored (env : RelayEnv) (m : UpsertEvent)
    (msg : WAMessage) (rest : List WAMessage)
    (hm : m.messages = msg :: rest) (hself : msg.key.fromMe = true) :
    messagesUpsert env m = [] := by
  unfold messagesUpsert
  rw [hm]
  simp [hself]

/-- Claim C1, witness for `C1_selfAuthoredIgnored`. -/
theorem C1_selfAuthoredIgnored_witness :
    messagesUpsert ⟨true, .ok "x", true, true, true⟩
      ⟨[⟨⟨"5550000@s.whatsapp.net", true⟩, .conversation "hello"⟩], "notify"⟩ = [] :=
  C1_selfAuthoredIgnored ⟨true, .ok "x", true, true, true⟩
    ⟨[⟨⟨"5550000@s.whatsapp.net", true⟩, .conversation "hello"⟩], "notify"⟩
    ⟨⟨"5550000@s.whatsapp.net", true⟩, .conversation "hello"⟩ [] rfl rfl

/-- Claim C2, counterexample: at retry count 0 a close event with a
non-logout reason schedules the reconnection with delay
`retryDelay * 1 = 5000` - the counter is incremented first and the delay
computed from the incremented value (lines 176-177), not from the value
before the increment, which would give `retryDelay * 0 = 0`. -/
theorem C2_counterexample :
    (connectionUpdate ⟨"", "open", 0⟩ ⟨some "close", some 428, none⟩ none).2 =
      [ConnAction.scheduleReconnect (retryDelay * 1)] ∧
    (connectionUpdate ⟨"", "open", 0⟩ ⟨some "close", some 428, none⟩ none).1.retryCount = 1 ∧
    retryDelay * 1 ≠ retryDelay * 0 := by
  refine ⟨by decide, by decide, by decide⟩

/-- Claim C2 (amended): for every close event with a non-logout reason
while the counter is below the maximum (and no QR payload in the same
update), exactly one reconnection is scheduled, the counter increments
by exactly one, and the delay equals the base interval multiplied by the
attempt number AFTER the increment. -/
theorem C2_backoffUsesIncrementedCounter (s : BotState) (u : ConnUpdate)
    (q : Option String) (hc : u.connection = some "close") (hq : u.qr = none)
    (hnl : u.lastDisconnectStatusCode ≠ some DisconnectReason_loggedOut)
    (hlt : s.retryCount < maxRetries) :
    (connectionUpdate s u q).1.retryCount = s.retryCount + 1 ∧
    (connectionUpdate s u q).2 =
      [ConnAction.scheduleReconnect (retryDelay * (s.retryCount + 1))] := by
  unfold connectionUpdate
  rw [hc, hq]
  simp [hnl, hlt]

/-- Claim C2, witness for `C2_backoffUsesIncrementedCounter`. -/
theorem C2_backoffUsesIncrementedCounter_witness :
    (connectionUpdate ⟨"", "open", 2⟩ ⟨some "close", some 428, none⟩ none).1.retryCount = 3 ∧
    (connectionUpdate ⟨"", "open", 2⟩ ⟨some "close", some 428, none⟩ none).2 =
      [ConnAction.scheduleReconnect 15000] :=
  C2_backoffUsesIncrementedCounter ⟨"", "open", 2⟩ ⟨some "close", some 428, none⟩
    none rfl rfl (by decide) (by decide)

/-- Claim C3: for every close event whose reason is the logged-out
status code, no reconnection is scheduled; the handler performs the
best-effort credential deletion and exits the process (lines 184-195). -/
theorem C3_logoutNoReconnectExit (s : BotState) (u : ConnUpdate) (q : Option String)
    (hc : u.connection = some "close")
    (hl : u.lastDisconnectStatusCode = some DisconnectReason_loggedOut) :
    (connectionUpdate s u q).2 =
      [ConnAction.deleteCredsBestEffort, ConnAction.exitProcess 1] ∧
    ∀ d, ConnAction.scheduleReconnect d ∉ (connectionUpdate s u q).2 := by
  have h2 : (connectionUpdate s u q).2 =
      [ConnAction.deleteCredsBestEffort, ConnAction.exitProcess 1] := by
    unfold connectionUpdate
    rw [hc, hl]
    simp
  refine ⟨h2, fun d => ?_⟩
  rw [h2]
  simp

/-- Claim C3, witness for `C3_logoutNoReconnectExit`. -/
theorem C3_logoutNoReconnectExit_witness :
    (connectionUpdate ⟨"", "open", 0⟩ ⟨some "close", some 401, none⟩ none).2 =
      [ConnAction.deleteCredsBestEffort, ConnAction.exitProcess 1] :=
  (C3_logoutNoReconnectExit ⟨"", "open", 0⟩ ⟨some "close", some 401, none⟩ none rfl rfl).1

/-- Claim C4, counterexample: a new pairing QR event during which the QR
rendering throws (the `catch` on line 149 only logs) leaves the retry
counter unchanged at 3 - the claim says every new QR event resets it to
zero. -/
theorem C4_counterexample :
    (connectionUpdate ⟨"", "connecting", 3⟩ ⟨none, none, some "payload"⟩ none).1.retryCount = 3 ∧
    (3 : Nat) ≠ 0 := by
  refine ⟨by decide, by decide⟩

/-- Claim C4 (amended): on every successful new connection the retry
counter resets to zero and the stored QR string is cleared; on a new
pairing QR event the counter resets to zero only when the QR rendering
succeeds (in an update that is not simultaneously a close event). -/
theorem C4_retryResetOnOpenAndRenderedQr (s : BotState) (u : ConnUpdate)
    (q : Option String) (url : String) (hnc : u.connection ≠ some "close") :
    (u.connection = some "open" →
      (connectionUpdate s u q).1.retryCount = 0 ∧
      (connectionUpdate s u q).1.qrCodeString = "") ∧
    (u.qr.isSome = true → (connectionUpdate s u (some url)).1.retryCount = 0) := by
  constructor
  · intro ho
    unfold connectionUpdate
    rw [ho]
    simp
  · intro hq
    obtain ⟨p, hp⟩ := Option.isSome_iff_exists.mp hq
    unfold connectionUpdate
    rw [hp]
    simp only [if_neg hnc]
    split <;> simp

/-- Claim C4, witness for `C4_retryResetOnOpenAndRenderedQr`. -/
theorem C4_retryResetOnOpenAndRenderedQr_witness :
    ((connectionUpdate ⟨"old", "connecting", 4⟩ ⟨some "open", none, some "p"⟩ none).1.retryCount = 0 ∧
     (connectionUpdate ⟨"old", "connecting", 4⟩ ⟨some "open", none, some "p"⟩ none).1.qrCodeString = "") ∧
    (connectionUpdate ⟨"old", "connecting", 4⟩ ⟨some "open", none, some "p"⟩ (some "u")).1.retryCount = 0 :=
  ⟨(C4_retryResetOnOpenAndRenderedQr ⟨"old", "connecting", 4⟩
      ⟨some "open", none, some "p"⟩ none "u" (by decide)).1 rfl,
   (C4_retryResetOnOpenAndRenderedQr ⟨"old", "connecting", 4⟩
      ⟨some "open", none, some "p"⟩ none "u" (by decide)).2 rfl⟩

/-- Claim C5: when the text-generation call fails (throws or yields a
malformed body, modelled by `Except.error`), `generateAIResponse`
returns the fixed apology, the error never escapes the message handler,
and (presence updates and the send succeeding) the relay sends exactly
one reply, whose text is the fixed apology. -/
theorem C5_apiFailureSingleApologyReply (env : RelayEnv) (msg : WAMessage)
    (hai : env.aiResult = .error ())
    (h1 : env.presenceComposingOk = true) (h2 : env.presencePausedOk = true)
    (h3 : env.sendReplyOk = true) :
    generateAIResponse env.aiResult = fallbackApology ∧
    (handleIncomingMessage env msg).2 = false ∧
    (handleIncomingMessage env msg).1 =
      [RelayAction.presenceUpdate "composing" msg.key.remoteJid,
       RelayAction.apiCall (extractMessageText msg.content) (getContentType msg.content),
       RelayAction.presenceUpdate "paused" msg.key.remoteJid,
       RelayAction.send msg.key.remoteJid fallbackApology] ∧
    countSends (handleIncomingMessage env msg).1 = 1 := by
  simp [handleIncomingMessage, handleBody, generateAIResponse, countSends,
        hai, h1, h2, h3, fallbackApology]

/-- Claim C5, witness for `C5_apiFailureSingleApologyReply`. -/
theorem C5_apiFailureSingleApologyReply_witness :
    generateAIResponse (Except.error ()) = fallbackApology ∧
    (handleIncomingMessage ⟨true, .error (), true, true, true⟩
        ⟨⟨"5551234@s.whatsapp.net", false⟩, .conversation "hello"⟩).2 = false ∧
    (handleIncomingMessage ⟨true, .error (), true, true, true⟩
        ⟨⟨"5551234@s.whatsapp.net", false⟩, .conversation "hello"⟩).1 =
      [RelayAction.presenceUpdate "composing" "5551234@s.whatsapp.net",
       RelayAction.apiCall "hello" "conversation",
       RelayAction.presenceUpdate "paused" "5551234@s.whatsapp.net",
       RelayAction.send "5551234@s.whatsapp.net" fallbackApology] ∧
    countSends (handleIncomingMessage ⟨true, .error (), true, true, true⟩
        ⟨⟨"5551234@s.whatsapp.net", false⟩, .conversation "hello"⟩).1 = 1 :=
  C5_apiFailureSingleApologyReply ⟨true, .error (), true, true, true⟩
    ⟨⟨"5551234@s.whatsapp.net", false⟩, .conversation "hello"⟩ rfl rfl rfl rfl

/-- Claim C6: for an inbound non-self text message, when the
text-generation call returns a (non-empty) text and the presence and
send calls succeed, the relay issues the composing presence update
before the API call, the paused presence update after it, and sends
exactly one reply with that text to the original sender. -/
theorem C6_successExactlyOneReply (env : RelayEnv) (msg : WAMessage) (t : String)
    (hai : env.aiResult = .ok t) (ht : t ≠ "")
    (h1 : env.presenceComposingOk = true) (h2 : env.presencePausedOk = true)
    (h3 : env.sendReplyOk = true) :
    (handleIncomingMessage env msg).1 =
      [RelayAction.presenceUpdate "composing" msg.key.remoteJid,
       RelayAction.apiCall (extractMessageText msg.content) (getContentType msg.content),
       RelayAction.presenceUpdate "paused" msg.key.remoteJid,
       RelayAction.send msg.key.remoteJid t] ∧
    countSends (handleIncomingMessage env msg).1 = 1 ∧
    (handleIncomingMessage env msg).2 = false := by
  simp [handleIncomingMessage, handleBody, generateAIResponse, countSends,
        hai, ht, h1, h2, h3]

/-- Claim C6, witness for `C6_successExactlyOneReply`. -/
theorem C6_successExactlyOneReply_witness :
    (handleIncomingMessage ⟨true, .ok "hi there", true, true, true⟩
        ⟨⟨"5550001@s.whatsapp.net", false⟩, .conversation "hello"⟩).1 =
      [RelayAction.presenceUpdate "composing" "5550001@s.whatsapp.net",
       RelayAction.apiCall "hello" "conversation",
       RelayAction.presenceUpdate "paused" "5550001@s.whatsapp.net",
       RelayAction.send "5550001@s.whatsapp.net" "hi there"] ∧
    countSends (handleIncomingMessage ⟨true, .ok "hi there", true, true, true⟩
        ⟨⟨"5550001@s.whatsapp.net", false⟩, .conversation "hello"⟩).1 = 1 ∧
    (handleIncomingMessage ⟨true, .ok "hi there", true, true, true⟩
        ⟨⟨"5550001@s.whatsapp.net", false⟩, .conversation "hello"⟩).2 = false :=
  C6_successExactlyOneReply ⟨true, .ok "hi there", true, true, true⟩
    ⟨⟨"5550001@s.whatsapp.net", false⟩, .conversation "hello"⟩ "hi there"
    rfl (by decide) rfl rfl rfl

/-- Claim C7, counterexample: with both the reply send and the generic
error-message send failing, the handler completes WITHOUT propagating
the failure (the second attempt is wrapped in its own try/catch, lines
297-303, which logs the send error) - whereas the spec-modelled
unguarded variant propagates it.  So the second attempt is guarded, not
unguarded. -/
theorem C7_counterexample :
    (handleIncomingMessage ⟨true, .ok "hi", true, false, false⟩
        ⟨⟨"5550002@s.whatsapp.net", false⟩, .conversation "hello"⟩).2 = false ∧
    RelayAction.logError "Error sending error message" ∈
      (handleIncomingMessage ⟨true, .ok "hi", true, false, false⟩
        ⟨⟨"5550002@s.whatsapp.net", false⟩, .conversation "hello"⟩).1 ∧
    (handleIncomingMessageUnguarded ⟨true, .ok "hi", true, false, false⟩
        ⟨⟨"5550002@s.whatsapp.net", false⟩, .conversation "hello"⟩).2 = true := by
  refine ⟨by decide, by decide, by decide⟩

/-- Claim C7 (amended): when sending the reply fails, a best-effort
second attempt sends the generic error message; the failure of that
second attempt is itself caught and only logged (the handler never
propagates), and neither send is retried (exactly two send attempts in
total). -/
theorem C7_sendFailureSecondAttemptGuarded (env : RelayEnv) (msg : WAMessage)
    (t : String) (hai : env.aiResult = .ok t) (ht : t ≠ "")
    (h1 : env.presenceComposingOk = true) (h2 : env.presencePausedOk = true)
    (h3 : env.sendReplyOk = false) :
    (handleIncomingMessage env msg).1 =
      [RelayAction.presenceUpdate "composing" msg.key.remoteJid,
       RelayAction.apiCall (extractMessageText msg.content) (getContentType msg.content),
       RelayAction.presenceUpdate "paused" msg.key.remoteJid,
       RelayAction.send msg.key.remoteJid t,
       RelayAction.send msg.key.remoteJid genericErrorText] ++
      (if env.sendErrorMsgOk then []
       else [RelayAction.logError "Error sending error message"]) ∧
    (handleIncomingMessage env msg).2 = false ∧
    countSends (handleIncomingMessage env msg).1 = 2 := by
  cases hse : env.sendErrorMsgOk <;>
    simp [handleIncomingMessage, handleBody, generateAIResponse, countSends,
          hai, ht, h1, h2, h3, hse]

/-- Claim C7, witness for `C7_sendFailureSecondAttemptGuarded`. -/
theorem C7_sendFailureSecondAttemptGuarded_witness :
    (handleIncomingMessage ⟨true, .ok "hi", true, false, false⟩
        ⟨⟨"5550004@s.whatsapp.net", false⟩, .conversation "hello"⟩).1 =
      [RelayAction.presenceUpdate "composing" "5550004@s.whatsapp.net",
       RelayAction.apiCall "hello" "conversation",
       RelayAction.presenceUpdate "paused" "5550004@s.whatsapp.net",
       RelayAction.send "5550004@s.whatsapp.net" "hi",
       RelayAction.send "5550004@s.whatsapp.net" genericErrorText] ++
      (if (false : Bool) then []
       else [RelayAction.logError "Error sending error message"]) ∧
    (handleIncomingMessage ⟨true, .ok "hi", true, false, false⟩
        ⟨⟨"5550004@s.whatsapp.net", false⟩, .conversation "hello"⟩).2 = false ∧
    countSends (handleIncomingMessage ⟨true, .ok "hi", true, false, false⟩
        ⟨⟨"5550004@s.whatsapp.net", false⟩, .conversation "hello"⟩).1 = 2 :=
  C7_sendFailureSecondAttemptGuarded ⟨true, .ok "hi", true, false, false⟩
    ⟨⟨"5550004@s.whatsapp.net", false⟩, .conversation "hello"⟩ "hi"
    rfl (by decide) rfl rfl rfl

/-- Claim C8: the status route returns exactly the fields `status`,
`hasQR`, `retryCount`, `maxRetries`, `timestamp` reflecting the
in-memory state, and after a connection-open event the status is open
and `hasQR` is false (with the counter reset and the fixed maximum). -/
theorem C8_statusReflectsStateAndOpen (s s2 : BotState) (u : ConnUpdate)
    (q : Option String) (now now2 : String) (ho : u.connection = some "open") :
    statusRoute s2 now2 =
      { status := s2.connectionState, hasQR := s2.qrCodeString ≠ "",
        retryCount := s2.retryCount, maxRetries := maxRetries,
        timestamp := now2 } ∧
    statusRoute (connectionUpdate s u q).1 now =
      { status := "open", hasQR := false, retryCount := 0,
        maxRetries := 5, timestamp := now } := by
  constructor
  · rfl
  · unfold connectionUpdate statusRoute
    rw [ho]
    simp [maxRetries]
    cases u.qr <;> cases q <;> rfl

/-- Claim C8, witness for `C8_statusReflectsStateAndOpen`. -/
theorem C8_statusReflectsStateAndOpen_witness :
    statusRoute ⟨"qr", "connecting", 2⟩ "t0" =
      { status := "connecting", hasQR := true, retryCount := 2,
        maxRetries := 5, timestamp := "t0" } ∧
    statusRoute (connectionUpdate ⟨"qr", "connecting", 2⟩
        ⟨some "open", none, none⟩ none).1 "t1" =
      { status := "open", hasQR := false, retryCount := 0,
        maxRetries := 5, timestamp := "t1" } := by
  have h := C8_statusReflectsStateAndOpen ⟨"qr", "connecting", 2⟩
    ⟨"qr", "connecting", 2⟩ ⟨some "open", none, none⟩ none "t1" "t0" rfl
  exact ⟨by simpa using h.1, h.2⟩

/-- Claim C9: a `messages.upsert` batch is processed exactly as its
first message alone - every later message in the batch is dropped - and
a batch whose type is not notify produces no processing at all. -/
theorem C9_onlyHeadOfBatchProcessed (env : RelayEnv) (m : UpsertEvent) :
    messagesUpsert env m = messagesUpsert env ⟨m.messages.take 1, m.type⟩ ∧
    (m.type ≠ "notify" → messagesUpsert env m = []) := by
  obtain ⟨msgs, ty⟩ := m
  constructor
  · cases msgs <;> rfl
  · intro hnt
    cases msgs with
    | nil => rfl
    | cons a l => simp [messagesUpsert, hnt]

/-- Claim C9, witness for `C9_onlyHeadOfBatchProcessed`. -/
theorem C9_onlyHeadOfBatchProcessed_witness :
    messagesUpsert ⟨true, .ok "x", true, true, true⟩
      ⟨[⟨⟨"5550003@s.whatsapp.net", false⟩, .conversation "hello"⟩,
        ⟨⟨"5550005@s.whatsapp.net", false⟩, .conversation "second"⟩], "append"⟩ = [] :=
  (C9_onlyHeadOfBatchProcessed ⟨true, .ok "x", true, true, true⟩
      ⟨[⟨⟨"5550003@s.whatsapp.net", false⟩, .conversation "hello"⟩,
        ⟨⟨"5550005@s.whatsapp.net", false⟩, .conversation "second"⟩], "append"⟩).2
    (by decide)

/-- Claim C10: when the text-generation call succeeds with an empty
(falsy) text, the relay sends no reply at all, while both the composing
and the paused presence updates are still issued. -/
theorem C10_emptyResponseNoReply (env : RelayEnv) (msg : WAMessage)
    (hai : env.aiResult = .ok "")
    (h1 : env.presenceComposingOk = true) (h2 : env.presencePausedOk = true) :
    (handleIncomingMessage env msg).1 =
      [RelayAction.presenceUpdate "composing" msg.key.remoteJid,
       RelayAction.apiCall (extractMessageText msg.content) (getContentType msg.content),
       RelayAction.presenceUpdate "paused" msg.key.remoteJid] ∧
    countSends (handleIncomingMessage env msg).1 = 0 := by
  simp [handleIncomingMessage, handleBody, generateAIResponse, countSends,
        hai, h1, h2]

/-- Claim C10, witness for `C10_emptyResponseNoReply`. -/
theorem C10_emptyResponseNoReply_witness :
    (handleIncomingMessage ⟨true, .ok "", true, true, true⟩
        ⟨⟨"5550006@s.whatsapp.net", false⟩, .conversation "hello"⟩).1 =
      [RelayAction.presenceUpdate "composing" "5550006@s.whatsapp.net",
       RelayAction.apiCall "hello" "conversation",
       RelayAction.presenceUpdate "paused" "5550006@s.whatsapp.net"] ∧
    countSends (handleIncomingMessage ⟨true, .ok "", true, true, true⟩
        ⟨⟨"5550006@s.whatsapp.net", false⟩, .conversation "hello"⟩).1 = 0 :=
  C10_emptyResponseNoReply ⟨true, .ok "", true, true, true⟩
    ⟨⟨"5550006@s.whatsapp.net", false⟩, .conversation "hello"⟩ rfl rfl rfl

end Wachat
